import Mathlib

/-!
Shallow embedding of the publication-management backend
(`publications/views.py`, `publications/serializers.py`).

Users, publications, reaction-ledger records (`Views`) and notifications
are modelled as plain structures; the database tables backing them are
lists of records, passed and returned explicitly.  Each Django view
method becomes a Lean function over those lists, translated line by line
from the source.
-/

namespace BasePanel

/-- A user, as the views use it: primary key, role string
(`'editor'` or anything else) and display name. -/
structure User where
  id : Nat
  role : String
  full_name : String
  deriving DecidableEq, Repr

/-- One row of the `Views` reaction-ledger table: unique per
(publication, user) pair, with the two reaction flags. -/
structure ViewsRec where
  publication : Nat
  user : Nat
  user_liked : Bool
  user_disliked : Bool
  deriving DecidableEq, Repr

/-- A publication row, restricted to the fields the reviewed views touch. -/
structure Publication where
  id : Nat
  title : String
  abstract : String
  content : String
  keywords : String
  author : Nat
  editor : Option Nat
  status : String
  rejection_note : Option String
  views : Nat
  deriving DecidableEq, Repr

/-- A notification row: recipient, message, publication reference,
read flag and creation timestamp. -/
structure Notification where
  user : Nat
  message : String
  related_publication : Nat
  is_read : Bool
  created_at : Nat
  deriving DecidableEq, Repr

/-! ### Reaction-ledger primitives (the `Views` table) -/

/-- The unique-key predicate of the `Views` table:
`Views.objects.filter(publication=..., user=...)`. -/
def keyMatch (pid uid : Nat) (v : ViewsRec) : Bool :=
  v.publication == pid && v.user == uid

/-- `Views.objects.filter(publication=p, user=u).first()` /
the lookup half of `get_or_create`. -/
def findView (ledger : List ViewsRec) (pid uid : Nat) : Option ViewsRec :=
  ledger.find? (keyMatch pid uid)

/-- `view_obj.save(...)`: persist an updated row under its unique key. -/
def setView (ledger : List ViewsRec) (pid uid : Nat) (v : ViewsRec) :
    List ViewsRec :=
  ledger.map (fun w => if keyMatch pid uid w then v else w)

/-- `Views.objects.get_or_create(publication=.., user=..,
defaults={"user_liked": False, "user_disliked": False})`: returns the
row and the (possibly extended) table. -/
def getOrCreate (ledger : List ViewsRec) (pid uid : Nat) :
    ViewsRec × List ViewsRec :=
  match findView ledger pid uid with
  | some v => (v, ledger)
  | none =>
      let v : ViewsRec := ⟨pid, uid, false, false⟩
      (v, ledger ++ [v])

/-- Modelled from the spec: `Publication.total_likes()` lives in
`models.py`, which is not among the source files; per §4.3 it is the
aggregate count of ledger records for the publication with
`user_liked` set, computed on demand. -/
def total_likes (ledger : List ViewsRec) (pid : Nat) : Nat :=
  (ledger.filter (fun v => v.publication == pid && v.user_liked)).length

/-- Modelled from the spec: `Publication.total_dislikes()` lives in
`models.py`, which is not among the source files; per §4.3 it is the
aggregate count of ledger records for the publication with
`user_disliked` set. -/
def total_dislikes (ledger : List ViewsRec) (pid : Nat) : Nat :=
  (ledger.filter (fun v => v.publication == pid && v.user_disliked)).length

/-! ### `PublicationDetailView.get_object` (the RecordView path) -/

/-- `PublicationDetailView.get_object`: after fetching the publication,
if no `Views` row exists for (publication, requesting user) the view
counter is incremented and saved.  No ledger row is created here; the
ledger is read only. -/
def get_object (ledger : List ViewsRec) (p : Publication) (uid : Nat) :
    Publication :=
  if (findView ledger p.id uid).isNone then
    { p with views := p.views + 1 }
  else p

/-- `N` successive detail retrievals by the same user against the same
(unchanged) ledger. -/
def get_objectN : Nat → List ViewsRec → Publication → Nat → Publication
  | 0, _, p, _ => p
  | n + 1, ledger, p, uid => get_objectN n ledger (get_object ledger p uid) uid

/-! ### `ViewsUpdateView.patch` (the React operation) -/

/-- Outcome of `ViewsUpdateView.patch`: the 400 response for a bad
action, the 400 "already reacted" response (carrying the table as the
request leaves it), or the 200 response with the updated table and the
aggregate counts. -/
inductive ReactResult where
  | invalidAction : ReactResult
  | alreadyReacted (ledger : List ViewsRec) : ReactResult
  | ok (ledger : List ViewsRec) (total_likes total_dislikes : Nat) : ReactResult
  deriving DecidableEq, Repr

/-- `ViewsUpdateView.patch`, translated clause by clause: validate the
action, `get_or_create` the ledger row, reject a duplicate reaction
before any mutation, otherwise set the requested flag and clear the
opposite one in the same save. -/
def patch (ledger : List ViewsRec) (pid uid : Nat) (action : String) :
    ReactResult :=
  if action ≠ "like" ∧ action ≠ "dislike" then .invalidAction
  else
    let vc := getOrCreate ledger pid uid
    if action = "like" then
      if vc.1.user_liked then .alreadyReacted vc.2
      else
        let v := { vc.1 with user_liked := true, user_disliked := false }
        let ledger := setView vc.2 pid uid v
        .ok ledger (total_likes ledger pid) (total_dislikes ledger pid)
    else
      if vc.1.user_disliked then .alreadyReacted vc.2
      else
        let v := { vc.1 with user_disliked := true, user_liked := false }
        let ledger := setView vc.2 pid uid v
        .ok ledger (total_likes ledger pid) (total_dislikes ledger pid)

/-- The ledger as the database holds it after a `patch` request: error
responses other than invalid-action still keep whatever `get_or_create`
persisted. -/
def stepLedger (ledger : List ViewsRec) (pid uid : Nat) (action : String) :
    List ViewsRec :=
  match patch ledger pid uid action with
  | .invalidAction => ledger
  | .alreadyReacted l => l
  | .ok l _ _ => l

/-- The mutual-exclusion invariant on the ledger: no row has both
reaction flags set. -/
def mutexInv (ledger : List ViewsRec) : Prop :=
  ∀ v ∈ ledger, ¬(v.user_liked = true ∧ v.user_disliked = true)

/-! ### `PublicationDetailView.perform_update` (UpdateContent / ChangeStatus) -/

/-- The request payload as `perform_update` and the serializer read it:
each writable field is present (`some`) or absent (`none`). -/
structure UpdateData where
  status : Option String
  rejection_note : Option String
  title : Option String
  abstract : Option String
  content : Option String
  deriving Repr

/-- Python `str.strip()` on the underlying character list: drop
whitespace from both ends. -/
def stripChars (l : List Char) : List Char :=
  ((l.dropWhile Char.isWhitespace).reverse.dropWhile Char.isWhitespace).reverse

/-- Python `str.strip()`. -/
def strip (s : String) : String :=
  ⟨stripChars s.data⟩

/-- `data.get('rejection_note', '').strip() or None`: the note as
stored, `none` when blank or absent. -/
def normalizeNote (d : UpdateData) : Option String :=
  let s := strip (d.rejection_note.getD "")
  if s = "" then none else some s

/-- Python truthiness of `status_value` in
`if user.role == 'editor' and status_value:`. -/
def statusTruthy : Option String → Bool
  | none => false
  | some s => s ≠ ""

/-- `PublicationSerializer.update` on a partial update: set each
attribute supplied in `validated_data` on the instance and save it. -/
def serializerUpdate (p : Publication) (d : UpdateData) : Publication :=
  { p with
    title := d.title.getD p.title
    abstract := d.abstract.getD p.abstract
    content := d.content.getD p.content
    status := d.status.getD p.status
    rejection_note :=
      match d.rejection_note with
      | some s => some s
      | none => p.rejection_note }

/-- The author-notification message built in `perform_update`
(`now` stands for the formatted `timezone.now()` string). -/
def authorMessage (title sv now : String) : String :=
  "Your publication \x27" ++ title ++ "\x27 status changed to \x27" ++ sv ++
    "\x27 at " ++ now ++ "."

/-- The peer-editor notification message built in `perform_update`. -/
def editorMessage (title sv full_name now : String) : String :=
  "Publication \x27" ++ title ++ "\x27 status updated to \x27" ++ sv ++
    "\x27 by " ++ full_name ++ " at " ++ now ++ "."

/-- Outcome of `PublicationDetailView.perform_update`: the
`ValueError` on rejected publications, `PermissionDenied`, the editor
status-change 200 response (updated row, the notifications created, and
the `rejection_note` echoed in the response body), or the author
content-edit 200 response. -/
inductive UpdateResult where
  | invalidState : UpdateResult
  | permissionDenied : UpdateResult
  | statusChanged (p : Publication) (notifs : List Notification)
      (respNote : Option String) : UpdateResult
  | contentUpdated (p : Publication) : UpdateResult
  deriving DecidableEq, Repr

/-- `PublicationDetailView.perform_update`, translated branch by branch.
`users` is the `User` table (for the peer-editor fan-out), `now` the
formatted timestamp used in messages, `nowT` the creation timestamp of
the new notification rows. -/
def perform_update (users : List User) (user : User) (p : Publication)
    (d : UpdateData) (now : String) (nowT : Nat) : UpdateResult :=
  let note := normalizeNote d
  if p.status = "rejected" ∧ user.role = "editor" then .invalidState
  else if user.role = "editor" ∧ statusTruthy d.status then
    let sv := d.status.getD ""
    let inst := { serializerUpdate p d with editor := some user.id, status := sv }
    let inst :=
      if sv = "rejected" then { inst with rejection_note := note }
      else { inst with rejection_note := none }
    let authorNotif : Notification :=
      { user := inst.author
        message := authorMessage inst.title sv now
        related_publication := inst.id
        is_read := false
        created_at := nowT }
    let editors := users.filter (fun e => e.role == "editor" && e.id != user.id)
    let editorNotifs := editors.map (fun e =>
      ({ user := e.id
         message := editorMessage inst.title sv user.full_name now
         related_publication := inst.id
         is_read := false
         created_at := nowT } : Notification))
    .statusChanged inst (authorNotif :: editorNotifs) note
  else if user.id = p.author then .contentUpdated (serializerUpdate p d)
  else .permissionDenied

/-- The notifications a `perform_update` call created (`none` when the
call did not take the status-change branch). -/
def resultNotifs : UpdateResult → Option (List Notification)
  | .statusChanged _ ns _ => some ns
  | _ => none

/-- The `rejection_note` stored on the publication after a successful
status change. -/
def resultStoredNote : UpdateResult → Option (Option String)
  | .statusChanged p _ _ => some p.rejection_note
  | _ => none

/-- The `rejection_note` echoed in the status-change response body. -/
def resultRespNote : UpdateResult → Option (Option String)
  | .statusChanged _ _ n => some n
  | _ => none

/-! ### `PublicationListCreateView.get_queryset` (listing) -/

/-- Django `icontains`: case-insensitive substring match. -/
def icontains (needle hay : String) : Bool :=
  decide (List.IsInfix needle.toLower.toList hay.toLower.toList)

/-- The keyword filter of `get_queryset`: comma-split, trim, drop empty
tokens; a publication matches when any token is an `icontains` match
against its keywords, title or abstract (an empty token list matches
everything, as an empty `Q()` does). -/
def keywordFilter (ks : String) (pubs : List Publication) : List Publication :=
  let kl := ((ks.split (· = ',')).map strip).filter (· ≠ "")
  if kl = [] then pubs
  else pubs.filter (fun p => kl.any (fun k =>
    icontains k p.keywords || icontains k p.title || icontains k p.abstract))

/-- `PublicationListCreateView.get_queryset`: optional keyword filter,
then editors see everything while other callers see their own
publications or approved ones. -/
def get_queryset (pubs : List Publication) (user : User)
    (keywords : Option String) : List Publication :=
  let qs :=
    match keywords with
    | none => pubs
    | some ks => if ks = "" then pubs else keywordFilter ks pubs
  if user.role = "editor" then qs
  else qs.filter (fun p => p.author == user.id || p.status == "approved")

/-! ### Notification views and serializer -/

/-- `NotificationUnreadView.get_queryset` in isolation: `none` models
an anonymous `request.user` (the `if user.is_anonymous` branch of the
source, which the permission gate below makes unreachable); otherwise
the caller's unread notifications ordered by `-created_at` (newest
first). -/
def unread_queryset (notifs : List Notification) (caller : Option User) :
    List Notification :=
  match caller with
  | none => []
  | some u =>
      (notifs.filter (fun n => n.user == u.id && !n.is_read)).mergeSort
        (fun a b => b.created_at ≤ a.created_at)

/-- Outcome of a request to `NotificationUnreadView`: the framework's
not-authenticated error, or the 200 response with the queryset. -/
inductive UnreadResponse where
  | notAuthenticated : UnreadResponse
  | ok (notifs : List Notification) : UnreadResponse
  deriving DecidableEq, Repr

/-- A request to `NotificationUnreadView`:
`permission_classes = [permissions.IsAuthenticated]` runs before the
handler, so an anonymous caller is rejected with an authentication
error and `get_queryset` is never invoked; an authenticated caller
gets the queryset. -/
def unread_request (notifs : List Notification) (caller : Option User) :
    UnreadResponse :=
  match caller with
  | none => .notAuthenticated
  | some u => .ok (unread_queryset notifs (some u))

/-- The payload `NotificationSerializer.update` may receive: `is_read`
plus the other writable field (`message`) the request could supply. -/
structure NotifValidatedData where
  is_read : Option Bool
  message : Option String
  deriving Repr

/-- `NotificationSerializer.update`:
`instance.is_read = validated_data.get('is_read', instance.is_read)`
then save — nothing else is touched. -/
def notificationUpdate (inst : Notification) (vd : NotifValidatedData) :
    Notification :=
  { inst with is_read := vd.is_read.getD inst.is_read }

/-! ### Concrete fixtures used to instantiate the theorems -/

/-- A rejected publication owned by user 5. -/
def pubRejected : Publication := ⟨1, "T", "A", "C", "", 5, none, "rejected", some "bad", 0⟩

/-- A pending publication owned by user 5, with a stale rejection note. -/
def pubPending : Publication := ⟨1, "T", "A", "C", "", 5, none, "pending", some "old", 0⟩

/-- The owner of the two publications above; role is not editor. -/
def alice : User := ⟨5, "author", "Al"⟩

/-- An editor. -/
def edgar : User := ⟨9, "editor", "Ed"⟩

/-- A second editor, distinct from `edgar`. -/
def edith : User := ⟨3, "editor", "E2"⟩

/-- A reader who owns `pubOwnPending` and nothing else. -/
def bob : User := ⟨2, "author", "Bob"⟩

/-- Bob's own pending publication. -/
def pubOwnPending : Publication := ⟨10, "T1", "A1", "C1", "", 2, none, "pending", none, 0⟩

/-- Someone else's approved publication. -/
def pubOtherApproved : Publication := ⟨11, "T2", "A2", "C2", "", 5, none, "approved", none, 0⟩

/-- Someone else's pending publication. -/
def pubOtherPending : Publication := ⟨12, "T3", "A3", "C3", "", 5, none, "pending", none, 0⟩

/-- A small publication table. -/
def demoPubs : List Publication := [pubOwnPending, pubOtherApproved, pubOtherPending]

/-- A content-only update payload. -/
def contentPayload : UpdateData := ⟨none, none, none, none, some "new content"⟩

/-! ## Theorems -/

/-- C1: the claim says N detail retrievals by one user increment the
counter exactly once in total.  The code violates it: `get_object`
increments whenever no reaction-ledger row exists for the pair but never
creates that row, so a user who has not reacted increments the counter
on every retrieval.  Here two retrievals against an empty ledger take
the counter from 0 to 2. -/
theorem c1_record_view_double_increment :
    (get_objectN 2 [] ⟨1, "T", "A", "C", "", 5, none, "pending", none, 0⟩ 7).views = 2 ∧
    (get_objectN 5 [⟨1, 7, false, false⟩] ⟨1, "T", "A", "C", "", 5, none, "pending", none, 0⟩ 7).views = 0 := by
  constructor <;> rfl

/-- C2 counterexample: the claim says the author's content update on a
rejected publication fails with `InvalidStateError` and leaves the
publication unchanged.  On the code, the author (role not editor)
succeeds: the guard `status == 'rejected' and user.role == 'editor'`
does not fire for them and the content is saved. -/
theorem c2_counterexample :
    perform_update [] alice pubRejected contentPayload "now" 0 =
      .contentUpdated ⟨1, "T", "A", "new content", "", 5, none, "rejected", some "bad", 0⟩ ∧
    perform_update [] alice pubRejected contentPayload "now" 0 ≠ .invalidState := by
  constructor <;> decide

/-- C2 amended: the rejected-blocks-edits guard fires only for callers
with role editor; a content update on a rejected publication by its
author, when the author's role is not editor, succeeds and applies the
serializer update. -/
theorem c2_author_edit_rejected_succeeds (users : List User) (user : User)
    (p : Publication) (d : UpdateData) (now : String) (nowT : Nat)
    (hst : p.status = "rejected") (hrole : user.role ≠ "editor")
    (hauth : user.id = p.author) :
    perform_update users user p d now nowT = .contentUpdated (serializerUpdate p d) := by
  simp [perform_update, hst, hrole, hauth]

/-- Witness for C2 amended: Alice edits her rejected publication and
the edit goes through. -/
theorem c2_witness :
    perform_update [] alice pubRejected contentPayload "now" 0 =
      .contentUpdated (serializerUpdate pubRejected contentPayload) :=
  c2_author_edit_rejected_succeeds [] alice pubRejected contentPayload "now" 0
    rfl (by decide) rfl

/-- C3 counterexample: the claim says an editor can reassign the status
of a rejected publication.  On the code, the guard at the top of
`perform_update` raises `ValueError` for every editor call on a
rejected publication, before the status-change branch is reached. -/
theorem c3_counterexample :
    perform_update [] edgar pubRejected ⟨some "approved", none, none, none, none⟩ "now" 0 =
      .invalidState := by
  decide

/-- C3 amended: for every rejected publication and every caller with
role editor, `perform_update` fails with the `ValueError`
(`InvalidStateError`) regardless of the payload: rejected is terminal
for editor-initiated status changes; only the author's content-edit
path remains open. -/
theorem c3_editor_blocked_on_rejected (users : List User) (user : User)
    (p : Publication) (d : UpdateData) (now : String) (nowT : Nat)
    (hst : p.status = "rejected") (hrole : user.role = "editor") :
    perform_update users user p d now nowT = .invalidState := by
  simp [perform_update, hst, hrole]

/-- Witness for C3 amended: Edgar tries to approve a rejected
publication and gets the invalid-state failure. -/
theorem c3_witness :
    perform_update [] edgar pubRejected ⟨some "approved", none, none, none, none⟩ "now" 0 =
      .invalidState :=
  c3_editor_blocked_on_rejected [] edgar pubRejected
    ⟨some "approved", none, none, none, none⟩ "now" 0 rfl rfl

/-- C10: `NotificationSerializer.update` touches only `is_read`:
message, publication reference, recipient and creation timestamp are
those of the original instance even when the payload carries values for
them, and `is_read` becomes the payload value when supplied. -/
theorem c10_mark_read_frame (inst : Notification) (vd : NotifValidatedData) :
    (notificationUpdate inst vd).message = inst.message ∧
    (notificationUpdate inst vd).related_publication = inst.related_publication ∧
    (notificationUpdate inst vd).user = inst.user ∧
    (notificationUpdate inst vd).created_at = inst.created_at ∧
    (notificationUpdate inst vd).is_read = vd.is_read.getD inst.is_read :=
  ⟨rfl, rfl, rfl, rfl, rfl⟩

/-- C4 counterexample: the claim says the `rejection_note` in the
response always equals the stored one, null for any non-rejected
status.  On the code, approving with a non-blank note stores `None` but
echoes the provided note in the response body. -/
theorem c4_counterexample :
    resultStoredNote (perform_update [edgar, edith] edgar pubPending
      ⟨some "approved", some "x", none, none, none⟩ "now" 0) = some none ∧
    resultRespNote (perform_update [edgar, edith] edgar pubPending
      ⟨some "approved", some "x", none, none, none⟩ "now" 0) = some (some "x") := by
  constructor <;> decide

/-- C4 amended: on a successful status change the stored
`rejection_note` is the normalized provided note when the new status is
`rejected` and null otherwise, while the response body always echoes
the normalized provided note — so response and stored value agree
exactly when the new status is `rejected` or the note normalizes to
null. -/
theorem c4_note_semantics (users : List User) (user : User) (p : Publication)
    (d : UpdateData) (now : String) (nowT : Nat) (sv : String)
    (hst : p.status ≠ "rejected") (hrole : user.role = "editor")
    (hsv : d.status = some sv) (hne : sv ≠ "") :
    resultStoredNote (perform_update users user p d now nowT) =
      some (if sv = "rejected" then normalizeNote d else none) ∧
    resultRespNote (perform_update users user p d now nowT) =
      some (normalizeNote d) := by
  by_cases hc : sv = "rejected" <;>
    simp [perform_update, resultStoredNote, resultRespNote, statusTruthy,
      hst, hrole, hsv, hne, hc]

/-- Witness for C4 amended: rejecting with note `too short` stores and
echoes `too short`. -/
theorem c4_witness :
    resultStoredNote (perform_update [edgar] edgar pubPending
      ⟨some "rejected", some "too short", none, none, none⟩ "now" 0) =
      some (if "rejected" = "rejected" then
        normalizeNote ⟨some "rejected", some "too short", none, none, none⟩ else none) ∧
    resultRespNote (perform_update [edgar] edgar pubPending
      ⟨some "rejected", some "too short", none, none, none⟩ "now" 0) =
      some (normalizeNote ⟨some "rejected", some "too short", none, none, none⟩) :=
  c4_note_semantics [edgar] edgar pubPending
    ⟨some "rejected", some "too short", none, none, none⟩ "now" 0 "rejected"
    (by decide) rfl rfl (by decide)

/-- C5: a successful status change creates exactly one notification to
the publication's author followed by one to each other user with role
editor (the acting editor excluded), all referencing the publication;
no other notifications come out of the call. -/
theorem c5_notification_fanout (users : List User) (user : User)
    (p : Publication) (d : UpdateData) (now : String) (nowT : Nat) (sv : String)
    (hst : p.status ≠ "rejected") (hrole : user.role = "editor")
    (hsv : d.status = some sv) (hne : sv ≠ "") :
    ((resultNotifs (perform_update users user p d now nowT)).getD []).map
        (fun n => n.user) =
      p.author ::
        (users.filter (fun e => e.role == "editor" && e.id != user.id)).map
          (fun e => e.id) ∧
    ∀ n ∈ (resultNotifs (perform_update users user p d now nowT)).getD [],
      n.related_publication = p.id := by
  by_cases hc : sv = "rejected" <;>
    simp [perform_update, resultNotifs, statusTruthy, serializerUpdate,
      hst, hrole, hsv, hne, hc] <;>
    intro n x hx hn hni heq <;> simp [← heq]

/-- Witness for C5: Edgar approves Alice's pending publication with
Edith the only other editor: recipients are Alice then Edith, both
notifications pointing at the publication. -/
theorem c5_witness :
    ((resultNotifs (perform_update [edgar, edith] edgar pubPending
        ⟨some "approved", none, none, none, none⟩ "now" 0)).getD []).map
        (fun n => n.user) =
      pubPending.author ::
        (([edgar, edith].filter
          (fun e => e.role == "editor" && e.id != edgar.id)).map (fun e => e.id)) ∧
    ∀ n ∈ (resultNotifs (perform_update [edgar, edith] edgar pubPending
        ⟨some "approved", none, none, none, none⟩ "now" 0)).getD [],
      n.related_publication = pubPending.id :=
  c5_notification_fanout [edgar, edith] edgar pubPending
    ⟨some "approved", none, none, none, none⟩ "now" 0 "approved"
    (by decide) rfl rfl (by decide)

/-- C7: when the ledger row for the pair already has the requested flag
set, `patch` answers with the already-reacted failure and returns the
table exactly as it was: the duplicate is rejected before any mutation
or save. -/
theorem c7_duplicate_reaction (ledger : List ViewsRec) (pid uid : Nat)
    (v : ViewsRec) (hv : findView ledger pid uid = some v) :
    (v.user_liked = true → patch ledger pid uid "like" = .alreadyReacted ledger) ∧
    (v.user_disliked = true → patch ledger pid uid "dislike" = .alreadyReacted ledger) := by
  constructor <;> intro hf <;> simp [patch, getOrCreate, hv, hf]

/-- Witness for C7: a row with both flags set rejects both duplicate
actions, leaving the one-row table untouched. -/
theorem c7_witness :
    patch [⟨1, 7, true, true⟩] 1 7 "like" = .alreadyReacted [⟨1, 7, true, true⟩] ∧
    patch [⟨1, 7, true, true⟩] 1 7 "dislike" = .alreadyReacted [⟨1, 7, true, true⟩] :=
  ⟨(c7_duplicate_reaction [⟨1, 7, true, true⟩] 1 7 ⟨1, 7, true, true⟩ rfl).1 rfl,
   (c7_duplicate_reaction [⟨1, 7, true, true⟩] 1 7 ⟨1, 7, true, true⟩ rfl).2 rfl⟩

/-- C8: under any keyword filter a non-editor caller only ever sees
their own publications or approved ones; without a keyword filter their
visible set is exactly the union of those two, while an editor's
unfiltered listing is the whole table. -/
theorem c8_listing_visibility (pubs : List Publication) (user : User)
    (p : Publication) :
    (∀ kw, user.role ≠ "editor" → ∀ q ∈ get_queryset pubs user kw,
      q.author = user.id ∨ q.status = "approved") ∧
    (user.role ≠ "editor" →
      (p ∈ get_queryset pubs user none ↔
        p ∈ pubs ∧ (p.author = user.id ∨ p.status = "approved"))) ∧
    (user.role = "editor" → get_queryset pubs user none = pubs) := by
  refine ⟨?_, ?_, ?_⟩
  · intro kw hrole q hq
    unfold get_queryset at hq
    rw [if_neg hrole] at hq
    simpa using (List.mem_filter.1 hq).2
  · intro hrole
    simp [get_queryset, hrole, List.mem_filter]
  · intro hrole
    simp [get_queryset, hrole]

/-- Witness for C8: Bob (not an editor) sees someone else's approved
publication only because it is approved, his own pending publication is
listed, another user's pending one is not, and editor Edgar's listing
is the full table. -/
theorem c8_witness :
    (pubOtherApproved.author = bob.id ∨ pubOtherApproved.status = "approved") ∧
    (pubOwnPending ∈ get_queryset demoPubs bob none ↔
      pubOwnPending ∈ demoPubs ∧
        (pubOwnPending.author = bob.id ∨ pubOwnPending.status = "approved")) ∧
    get_queryset demoPubs edgar none = demoPubs :=
  ⟨(c8_listing_visibility demoPubs bob pubOwnPending).1 none (by decide)
      pubOtherApproved (by decide),
   (c8_listing_visibility demoPubs bob pubOwnPending).2.1 (by decide),
   (c8_listing_visibility demoPubs edgar pubOwnPending).2.2 rfl⟩

/-- C9 counterexample: the claim says an unauthenticated caller gets an
empty sequence rather than an error.  On the code, the
`IsAuthenticated` permission class rejects the anonymous request with
an authentication error before `get_queryset` runs, so no sequence —
empty or otherwise — is ever returned. -/
theorem c9_counterexample :
    unread_request [] none = .notAuthenticated ∧
    unread_request [] none ≠ .ok [] := by
  constructor
  · rfl
  · decide

/-- C9 amended: an unauthenticated caller is rejected with an
authentication error by the `IsAuthenticated` permission gate before
`get_queryset` runs (its `is_anonymous` empty-queryset branch is
unreachable); an authenticated caller receives exactly their
notifications with `is_read = false`, ordered newest-created first. -/
theorem c9_unread_listing (notifs : List Notification) (u : User) :
    unread_request notifs none = .notAuthenticated ∧
    unread_request notifs (some u) = .ok (unread_queryset notifs (some u)) ∧
    (unread_queryset notifs (some u)).Perm
      (notifs.filter (fun n => n.user == u.id && !n.is_read)) ∧
    List.Pairwise (fun a b => b.created_at ≤ a.created_at)
      (unread_queryset notifs (some u)) := by
  refine ⟨rfl, rfl, ?_, ?_⟩
  · exact List.mergeSort_perm _ _
  · have h := @List.sorted_mergeSort Notification
      (fun a b => decide (b.created_at ≤ a.created_at))
      (fun a b c h₁ h₂ => by
        simp only [decide_eq_true_eq] at h₁ h₂ ⊢
        exact le_trans h₂ h₁)
      (fun a b => by
        simp only [Bool.or_eq_true, decide_eq_true_eq]
        exact le_total b.created_at a.created_at)
      (notifs.filter (fun n => n.user == u.id && !n.is_read))
    simp only [unread_queryset]
    exact h.imp (fun hab => by simpa using hab)

/-! ### Lemmas for the reaction-ledger invariant (C6) -/

lemma keyMatch_mk (pid uid : Nat) (a b : Bool) :
    keyMatch pid uid ⟨pid, uid, a, b⟩ = true := by
  simp [keyMatch]

lemma findView_none_forall {l : List ViewsRec} {pid uid : Nat}
    (h : findView l pid uid = none) : ∀ w ∈ l, keyMatch pid uid w = false := by
  intro w hw
  simpa using List.find?_eq_none.1 h w hw

lemma setView_no_match {l : List ViewsRec} {pid uid : Nat} {v : ViewsRec}
    (h : ∀ w ∈ l, keyMatch pid uid w = false) : setView l pid uid v = l := by
  induction l with
  | nil => rfl
  | cons a t ih =>
      have ha := h a (by simp)
      have ht := ih (fun w hw => h w (by simp [hw]))
      simp only [setView, List.map_cons] at ht ⊢
      simp [ha, ht]

lemma setView_append_hit {l : List ViewsRec} {pid uid : Nat} {x v : ViewsRec}
    (h : ∀ w ∈ l, keyMatch pid uid w = false) (hx : keyMatch pid uid x = true) :
    setView (l ++ [x]) pid uid v = l ++ [v] := by
  have hl : setView l pid uid v = l := setView_no_match h
  simp only [setView, List.map_append] at hl ⊢
  simp [hl, hx]

lemma findView_append_single {l : List ViewsRec} {pid uid : Nat} {x : ViewsRec}
    (h : findView l pid uid = none) (hx : keyMatch pid uid x = true) :
    findView (l ++ [x]) pid uid = some x := by
  simp only [findView] at h ⊢
  rw [List.find?_append, h]
  simp [hx]

lemma mutexInv_append_single {l : List ViewsRec} {v : ViewsRec}
    (hl : mutexInv l) (hv : ¬(v.user_liked = true ∧ v.user_disliked = true)) :
    mutexInv (l ++ [v]) := by
  intro w hw
  rcases List.mem_append.1 hw with h | h
  · exact hl w h
  · simp only [List.mem_singleton] at h
    exact h ▸ hv

lemma mutexInv_setView {l : List ViewsRec} {pid uid : Nat} {v : ViewsRec}
    (hl : mutexInv l) (hv : ¬(v.user_liked = true ∧ v.user_disliked = true)) :
    mutexInv (setView l pid uid v) := by
  intro w hw
  simp only [setView, List.mem_map] at hw
  rcases hw with ⟨x, hx, hfx⟩
  by_cases hk : keyMatch pid uid x = true
  · rw [if_pos hk] at hfx
    exact hfx ▸ hv
  · rw [if_neg hk] at hfx
    exact hfx ▸ hl x hx

lemma mutexInv_getOrCreate {ledger : List ViewsRec} {pid uid : Nat}
    (h : mutexInv ledger) : mutexInv (getOrCreate ledger pid uid).2 := by
  cases hf : findView ledger pid uid
  · simp only [getOrCreate, hf]
    exact mutexInv_append_single h (by simp)
  · simpa [getOrCreate, hf] using h

lemma mutexInv_stepLedger {ledger : List ViewsRec} {pid uid : Nat}
    {action : String} (h : mutexInv ledger) :
    mutexInv (stepLedger ledger pid uid action) := by
  unfold stepLedger patch
  by_cases hact : action ≠ "like" ∧ action ≠ "dislike"
  · simp only [if_pos hact]
    exact h
  · simp only [if_neg hact]
    by_cases hlike : action = "like"
    · simp only [if_pos hlike]
      by_cases hl : (getOrCreate ledger pid uid).1.user_liked = true
      · simp only [hl, if_true]
        exact mutexInv_getOrCreate h
      · simp only [hl, if_false, Bool.false_eq_true]
        exact mutexInv_setView (mutexInv_getOrCreate h) (by simp)
    · simp only [if_neg hlike]
      by_cases hd : (getOrCreate ledger pid uid).1.user_disliked = true
      · simp only [hd, if_true]
        exact mutexInv_getOrCreate h
      · simp only [hd, if_false, Bool.false_eq_true]
        exact mutexInv_setView (mutexInv_getOrCreate h) (by simp)

lemma stepLedger_like_fresh {ledger : List ViewsRec} {pid uid : Nat}
    (hf : findView ledger pid uid = none) :
    stepLedger ledger pid uid "like" = ledger ++ [⟨pid, uid, true, false⟩] := by
  unfold stepLedger patch
  rw [if_neg (by simp)]
  simp only [getOrCreate, hf, if_pos rfl]
  exact setView_append_hit (findView_none_forall hf) (keyMatch_mk pid uid false false)

lemma stepLedger_dislike_after {ledger : List ViewsRec} {pid uid : Nat}
    (hf : findView ledger pid uid = none) :
    stepLedger (ledger ++ [⟨pid, uid, true, false⟩]) pid uid "dislike" =
      ledger ++ [⟨pid, uid, false, true⟩] := by
  have hfv := findView_append_single hf (keyMatch_mk pid uid true false)
  unfold stepLedger patch
  rw [if_neg (by simp)]
  simp only [getOrCreate, hfv]
  rw [if_neg (by simp)]
  exact setView_append_hit (findView_none_forall hf) (keyMatch_mk pid uid true false)

/-- C6: one `patch` step preserves the flag mutual-exclusion invariant
(so no reachable ledger row ever has both flags set), and from the
initial created state (no row for the pair, the row is created with
both flags false) a like followed by a dislike leaves the row with
exactly the dislike flag set — the like flag is cleared in the same
update. -/
theorem c6_mutual_exclusion (ledger : List ViewsRec) (pid uid : Nat)
    (h : mutexInv ledger) :
    (∀ action, mutexInv (stepLedger ledger pid uid action)) ∧
    (findView ledger pid uid = none →
      findView (stepLedger (stepLedger ledger pid uid "like") pid uid "dislike")
        pid uid = some ⟨pid, uid, false, true⟩) := by
  constructor
  · intro action
    exact mutexInv_stepLedger h
  · intro hf
    rw [stepLedger_like_fresh hf, stepLedger_dislike_after hf]
    exact findView_append_single hf (keyMatch_mk pid uid false true)

/-- Witness for C6: from the empty ledger, user 7 likes then dislikes
publication 1; the invariant holds after the like and the final row has
only the dislike flag. -/
theorem c6_witness :
    mutexInv (stepLedger [] 1 7 "like") ∧
    findView (stepLedger (stepLedger [] 1 7 "like") 1 7 "dislike") 1 7 =
      some ⟨1, 7, false, true⟩ :=
  have h : mutexInv [] := fun v hv => absurd hv (List.not_mem_nil v)
  ⟨(c6_mutual_exclusion [] 1 7 h).1 "like",
   (c6_mutual_exclusion [] 1 7 h).2 rfl⟩

end BasePanel
